import Mathlib

/-!
Verification of the shopping-cart backend core (cart, checkout, reporting).

The development shallowly embeds the Django models and views of the
repository:

- products/models.py : the full Product model (name, price, stock_quantity,
  is_active, total_ordered, can_fulfill_quantity, reduce_stock).  In the
  source this model is present as a commented-out block while a minimal
  Product is live; every live call site (cart, orders, analytics views and
  serializers) uses the fields and methods of the full model, and the design
  notes designate it as the canonical schema, so it is the one embedded here.
- cart/models.py, cart/views.py, cart/serializers.py : Cart, CartItem,
  calculate_total, add/update item flows.
- orders/models.py, orders/views.py, orders/serializers.py : Order,
  OrderItem, the checkout transaction.
- analytics/views.py : product performance buckets and the revenue-analysis
  totals.

Money is embedded exactly, in integer cents: every monetary value in the
source is a Python Decimal with two decimal places, and the operations
applied to money are addition, subtraction, comparison and multiplication
by an integer quantity, under all of which the two-decimal-place values are
closed and exact, so scaling by 100 represents every reachable Decimal
faithfully (0.01 becomes 1, the 100000000 cap becomes 10000000000).
Database state is a record of product rows, the cart rows of the single
identity under consideration, and order rows.  transaction.atomic is
embedded by returning the unchanged initial state whenever the body ends in
an error (early return before any write, or an exception that rolls the
transaction back).
-/

namespace ShoppingCartProof

/-- Money: exact value of a two-decimal-place Python Decimal, in cents. -/
abbrev Money := ℤ

/-- Product row, fields as in the full model of products/models.py
(name, price, stock_quantity, is_active, total_ordered; id is the pk). -/
structure Product where
  id : Nat
  name : String
  price : Money
  stock_quantity : Nat
  is_active : Bool
  total_ordered : Nat
deriving DecidableEq

/-- Product.can_fulfill_quantity: False on a non-positive quantity, else
stock_quantity >= quantity.  Quantities are Nat here, the non-int guard of
the Python code is outside the embedding. -/
def Product.can_fulfill_quantity (p : Product) (quantity : Nat) : Bool :=
  if quantity = 0 then false else decide (quantity ≤ p.stock_quantity)

/-- Product.reduce_stock: raises ValueError when the quantity cannot be
fulfilled, else decrements stock_quantity and increments total_ordered.
The embedding returns the updated row; the error string elides the numeric
details of the Python message. -/
def Product.reduce_stock (p : Product) (quantity : Nat) : Except String Product :=
  if p.can_fulfill_quantity quantity then
    .ok { p with stock_quantity := p.stock_quantity - quantity,
                 total_ordered := p.total_ordered + quantity }
  else
    .error "Insufficient stock."

/-- The updated product row produced by a successful reduce_stock. -/
def reducedProduct (p : Product) (quantity : Nat) : Product :=
  { p with stock_quantity := p.stock_quantity - quantity,
           total_ordered := p.total_ordered + quantity }

/-- CartItem row of cart/models.py: pk, product foreign key, quantity. -/
structure CartItem where
  id : Nat
  product_id : Nat
  quantity : Nat
deriving DecidableEq

/-- Cart row of cart/models.py (the single cart of the identity under
consideration; timestamps are irrelevant to the verified properties). -/
structure Cart where
  items : List CartItem
deriving DecidableEq

/-- Order status choices of orders/models.py. -/
inductive OrderStatus where
  | pending
  | completed
  | cancelled
deriving DecidableEq

/-- OrderItem row of orders/models.py: snapshot of product name and price,
quantity, and the stored subtotal computed by OrderItem.save. -/
structure OrderItem where
  product_id : Nat
  product_name : String
  product_price : Money
  quantity : Nat
  subtotal : Money
deriving DecidableEq

/-- Order row of orders/models.py.  completed_at is embedded only as a flag
recording whether the timestamp has been set. -/
structure Order where
  status : OrderStatus
  total_amount : Money
  amount_paid : Money
  change_amount : Money
  items : List OrderItem
  completed_at_set : Bool
deriving DecidableEq

/-- Database state: product rows, the cart of the identity, order rows. -/
structure State where
  products : List Product
  cart : Cart
  orders : List Order
deriving DecidableEq

/-- Lookup of a product row by pk in a list of product rows. -/
def findProductIn (products : List Product) (pid : Nat) : Option Product :=
  products.find? (fun p => p.id == pid)

/-- Foreign-key lookup of a product row by pk. -/
def State.findProduct (s : State) (pid : Nat) : Option Product :=
  findProductIn s.products pid

/-- Join of cart items to their product rows, keeping only rows whose
product exists and is active (the product__is_active=True filter). -/
def joinActive (products : List Product) (items : List CartItem) :
    List (CartItem × Product) :=
  items.filterMap (fun it =>
    match findProductIn products it.product_id with
    | some p => if p.is_active then some (it, p) else none
    | none => none)

/-- Cart.get_items: the cart items joined to their product rows, filtered to
product__is_active=True. -/
def State.get_items (s : State) : List (CartItem × Product) :=
  joinActive s.products s.cart.items

/-- CartItem.get_subtotal: product.price times the quantity, exactly. -/
def lineSubtotal (itp : CartItem × Product) : Money :=
  itp.2.price * (itp.1.quantity : Money)

/-- Cart.calculate_total: reduce over get_items, starting from
Decimal zero, adding each item subtotal. -/
def State.calculate_total (s : State) : Money :=
  s.get_items.foldl (fun acc itp => acc + lineSubtotal itp) 0

/-- Whether a cart line refers to an existing, active product (spec side). -/
def activeLine (products : List Product) (it : CartItem) : Bool :=
  match findProductIn products it.product_id with
  | some p => p.is_active
  | none => false

/-- Price of the product a cart line refers to (spec side). -/
def linePrice (products : List Product) (it : CartItem) : Money :=
  match findProductIn products it.product_id with
  | some p => p.price
  | none => 0

/-- Cart total as the specification words it: the sum of price times
quantity over the cart items whose product is active. -/
def specCartTotal (s : State) : Money :=
  ((s.cart.items.filter (activeLine s.products)).map
    (fun it => linePrice s.products it * (it.quantity : Money))).sum

/-- Order.calculate_change: amount_paid minus total_amount when the payment
covers the total, else Decimal zero. -/
def Order.calculate_change (o : Order) : Money :=
  if o.total_amount ≤ o.amount_paid then o.amount_paid - o.total_amount else 0

/-- Order.can_complete: the payment covers the total. -/
def Order.can_complete (o : Order) : Bool :=
  decide (o.total_amount ≤ o.amount_paid)

/-- Order.complete: raises ValueError when the payment is insufficient, else
sets status to completed, stores the change and the completion timestamp. -/
def Order.complete (o : Order) : Except String Order :=
  if o.can_complete then
    .ok { o with status := .completed,
                 change_amount := o.calculate_change,
                 completed_at_set := true }
  else
    .error "Insufficient payment to complete order"

/-- OrderItem created by the checkout loop: snapshot of the product name and
price, with the subtotal computed and stored by OrderItem.save. -/
def mkOrderItem (p : Product) (quantity : Nat) : OrderItem :=
  { product_id := p.id
    product_name := p.name
    product_price := p.price
    quantity := quantity
    subtotal := p.price * (quantity : Money) }

/-- One entry of the insufficient-stock error detail list built during
checkout: product name, requested quantity, available stock. -/
structure StockError where
  product : String
  requested : Nat
  available : Nat
deriving DecidableEq

/-- Error outcomes of the checkout endpoint.  validation_error is the
serializer rejection of amount_paid, internal_error an uncaught exception
inside the transaction (which rolls the transaction back). -/
inductive CheckoutError where
  | validation_error : String → CheckoutError
  | empty_cart : CheckoutError
  | insufficient_payment : Money → CheckoutError
  | insufficient_stock : List StockError → CheckoutError
  | internal_error : String → CheckoutError
deriving DecidableEq

/-- Writing a mutated product row back by pk (product.save). -/
def State.updateProduct (s : State) (p2 : Product) : State :=
  { s with products := s.products.map (fun q => if q.id == p2.id then p2 else q) }

/-- cart_item.product.reduce_stock followed by the save of the mutated row:
looks the row up, applies reduce_stock, writes the result back.  A raised
ValueError is returned as the error string. -/
def reduce_stock_save (s : State) (pid quantity : Nat) : Except String State :=
  match s.findProduct pid with
  | none => .error "Product matching query does not exist."
  | some p =>
    match p.reduce_stock quantity with
    | .error e => .error e
    | .ok p2 => .ok (s.updateProduct p2)

/-- The checkout loop over the cart lines: for each line, create the
OrderItem snapshot, then reduce the product stock.  An exception raised by
reduce_stock aborts the loop. -/
def processItems (s : State) (order : Order) :
    List (CartItem × Product) → Except String (Order × State)
  | [] => .ok (order, s)
  | itp :: rest =>
    match reduce_stock_save s itp.1.product_id itp.1.quantity with
    | .error e => .error e
    | .ok s2 =>
      processItems s2
        { order with items := order.items ++ [mkOrderItem itp.2 itp.1.quantity] }
        rest

/-- The stock validation loop of CheckoutView.post: every cart line whose
product cannot fulfil the requested quantity contributes one entry with the
product name, the requested quantity and the available stock. -/
def stockViolations (s : State) : List StockError :=
  s.get_items.filterMap (fun itp =>
    if itp.2.can_fulfill_quantity itp.1.quantity then none
    else some ⟨itp.2.name, itp.1.quantity, itp.2.stock_quantity⟩)

/-- CheckoutSerializer: amount_paid is a Decimal with two decimal places
(which the cent scale encodes), at least 0.01 and at most 100000000
(validate_amount_paid), that is between 1 and 10000000000 cents. -/
def checkout_amount_valid (amount : Money) : Bool :=
  decide (1 ≤ amount) && decide (amount ≤ 10000000000)

/-- Body of CheckoutView.post inside transaction.atomic, after the
serializer has accepted amount_paid: empty-cart check, total, payment
check, stock check, order creation, the item/stock loop, completion, cart
clearing, and the append of the committed order row. -/
def checkoutBody (s : State) (amount_paid : Money) :
    Except CheckoutError (Order × State) :=
  let cart_items := s.get_items
  if cart_items.isEmpty then .error .empty_cart
  else
    let cart_total := s.calculate_total
    if amount_paid < cart_total then
      .error (.insufficient_payment (cart_total - amount_paid))
    else
      let stock_errors := stockViolations s
      if stock_errors.isEmpty then
        let order0 : Order :=
          { status := .pending, total_amount := cart_total,
            amount_paid := amount_paid, change_amount := 0,
            items := [], completed_at_set := false }
        match processItems s order0 cart_items with
        | .error e => .error (.internal_error e)
        | .ok (order1, s1) =>
          match order1.complete with
          | .error e => .error (.internal_error e)
          | .ok order2 =>
            .ok (order2, { s1 with cart := ⟨[]⟩, orders := s1.orders ++ [order2] })
      else
        .error (.insufficient_stock stock_errors)

/-- The checkout endpoint: serializer validation of amount_paid, then the
transactional body.  Any error leaves the committed state unchanged: the
early returns happen before any write, and an exception rolls the
transaction back. -/
def checkout (s : State) (amount_paid : Money) : Except CheckoutError Order × State :=
  if checkout_amount_valid amount_paid then
    match checkoutBody s amount_paid with
    | .error e => (.error e, s)
    | .ok (o, s2) => (.ok o, s2)
  else
    (.error (.validation_error "Payment amount is invalid."), s)

/-- The pending order created at step 6 of the checkout. -/
def pendingOrder (s : State) (amount_paid : Money) : Order :=
  { status := .pending, total_amount := s.calculate_total,
    amount_paid := amount_paid, change_amount := 0,
    items := [], completed_at_set := false }

/-- Invariant claimed for completed orders: the stored change is the exact
difference between payment and total and is non-negative. -/
def OrderOK (o : Order) : Prop :=
  o.status = .completed →
    o.change_amount = o.amount_paid - o.total_amount ∧ 0 ≤ o.change_amount

/-- Error outcomes of the cart item endpoints: serializer rejections
(ValidationError), missing cart item (NotFoundError via get_object_or_404),
and the insufficient-stock response built in the views. -/
inductive CartError where
  | validation_error : String → CartError
  | not_found : CartError
  | insufficient_stock : CartError
deriving DecidableEq

/-- Autoincrement pk for a freshly inserted cart item row. -/
def nextItemId (s : State) : Nat :=
  s.cart.items.foldl (fun m it => max m it.id) 0 + 1

/-- cart_item.save after changing the quantity: writes the row with the
given pk back. -/
def updateItemQuantity (s : State) (item_id new_quantity : Nat) : State :=
  { s with cart := ⟨s.cart.items.map (fun j =>
      if j.id == item_id then { j with quantity := new_quantity } else j)⟩ }

/-- Insertion of a new cart item row. -/
def appendItem (s : State) (it : CartItem) : State :=
  { s with cart := ⟨s.cart.items ++ [it]⟩ }

/-- CartAddItemView.post with AddToCartSerializer: quantity at least 1,
product must exist and be active, the requested quantity must be in stock
(serializer), then get_or_create on (cart, product); when the line already
exists the combined quantity is stock-checked and the line is incremented,
otherwise a new line is created with the requested quantity.  Every error
path returns before any write, so the state component is unchanged. -/
def add_item (s : State) (product_id quantity : Nat) :
    Except CartError Unit × State :=
  if quantity < 1 then
    (.error (.validation_error "Quantity must be at least 1."), s)
  else
    match s.findProduct product_id with
    | none => (.error (.validation_error "Product not found or not available."), s)
    | some p =>
      if p.is_active = false then
        (.error (.validation_error "Product not found or not available."), s)
      else if p.can_fulfill_quantity quantity = false then
        (.error (.validation_error "Insufficient stock."), s)
      else
        match s.cart.items.find? (fun it => it.product_id == product_id) with
        | some cart_item =>
          if p.can_fulfill_quantity (cart_item.quantity + quantity) = false then
            (.error .insufficient_stock, s)
          else
            (.ok (), updateItemQuantity s cart_item.id (cart_item.quantity + quantity))
        | none =>
          (.ok (), appendItem s ⟨nextItemId s, product_id, quantity⟩)

/-- CartUpdateItemView.put with UpdateCartItemSerializer: quantity between
1 and 1000, the item must belong to the cart (get_object_or_404), the new
quantity must be in stock, then the row is written.  The product lookup
cannot fail for a row respecting foreign-key integrity; it is mapped to the
lookup failure for totality. -/
def update_item (s : State) (item_id quantity : Nat) :
    Except CartError Unit × State :=
  if quantity < 1 then
    (.error (.validation_error "Quantity must be at least 1."), s)
  else if 1000 < quantity then
    (.error (.validation_error "Quantity is unreasonably high."), s)
  else
    match s.cart.items.find? (fun it => it.id == item_id) with
    | none => (.error .not_found, s)
    | some cart_item =>
      match s.findProduct cart_item.product_id with
      | none => (.error .not_found, s)
      | some p =>
        if p.can_fulfill_quantity quantity = false then
          (.error .insufficient_stock, s)
        else
          (.ok (), updateItemQuantity s item_id quantity)

/-- One row of the annotated queryset of ProductAnalyticsView.get: an
active product with its all-history total_sold aggregate, which is NULL
(None) for a product with no order items. -/
structure ProductStat where
  product : Product
  total_sold : Option Nat
deriving DecidableEq

/-- The `p.total_sold or 0` idiom applied to the aggregate. -/
def ProductStat.sold (ps : ProductStat) : Nat := ps.total_sold.getD 0

/-- high_performers filter of ProductAnalyticsView.get: total_sold above
10. -/
def high_performers (l : List ProductStat) : List ProductStat :=
  l.filter (fun ps => decide (10 < ps.sold))

/-- low_performers filter: total_sold strictly positive and at most 5. -/
def low_performers (l : List ProductStat) : List ProductStat :=
  l.filter (fun ps => decide (0 < ps.sold) && decide (ps.sold ≤ 5))

/-- no_sales filter: total_sold equal to zero. -/
def no_sales (l : List ProductStat) : List ProductStat :=
  l.filter (fun ps => decide (ps.sold = 0))

/-- Dynamic type of a Python numeric value flowing through the revenue
analysis: int, Decimal or float.  Values are kept exact; the constructor
records which representation the Python value has, which decides whether a
serialized amount is an exact decimal string. -/
inductive PyNumber where
  | pint : Int → PyNumber
  | pdec : Money → PyNumber
  | pfloat : Money → PyNumber
deriving DecidableEq

/-- Python float(x) on a numeric value: the result is a float.  (The value
is kept exact here; the real conversion additionally rounds to binary, so
any inexactness exhibited on this model is only amplified in the code.) -/
def PyNumber.toFloat : PyNumber → PyNumber
  | pint n => pfloat (n : Money)
  | pdec v => pfloat v
  | pfloat v => pfloat v

/-- Python addition on numeric values: any operand being a float makes the
result a float; int and Decimal combine to Decimal.  (CPython rejects
float plus Decimal with a TypeError; that combination is unreachable in
the accumulation below and is mapped to a float here.) -/
def PyNumber.add : PyNumber → PyNumber → PyNumber
  | pint a, pint b => pint (a + b)
  | pint a, pdec v => pdec ((a : Money) + v)
  | pdec v, pint a => pdec (v + (a : Money))
  | pdec a, pdec b => pdec (a + b)
  | pfloat a, pint b => pfloat (a + (b : Money))
  | pint a, pfloat b => pfloat ((a : Money) + b)
  | pfloat a, pdec b => pfloat (a + b)
  | pdec a, pfloat b => pfloat (a + b)
  | pfloat a, pfloat b => pfloat (a + b)

/-- The total_revenue accumulation of RevenueAnalysisView.get: reduce over
the daily revenue Decimals, adding float(item) to an accumulator that
starts as the int 0. -/
def revenue_total (revenue_list : List Money) : PyNumber :=
  revenue_list.foldl
    (fun acc r => acc.add (PyNumber.toFloat (PyNumber.pdec r)))
    (PyNumber.pint 0)

/-- Whether str() of the value is an exact decimal rendering of a currency
amount: true for Decimal and int, false for float, whose repr is the
shortest string identifying the binary double, not the exact decimal
amount. -/
def serialized_as_exact_decimal : PyNumber → Bool
  | .pdec _ => true
  | .pint _ => true
  | .pfloat _ => false

/-- Whether a cart error belongs to the ValidationError or NotFoundError
kinds of the specified update_item interface. -/
def CartError.isValidationOrNotFound : CartError → Bool
  | .validation_error _ => true
  | .not_found => true
  | .insufficient_stock => false

instance {ε α : Type} [DecidableEq ε] [DecidableEq α] :
    DecidableEq (Except ε α) := fun a b =>
  match a, b with
  | .error e, .error f =>
    match decEq e f with
    | .isTrue h => .isTrue (h ▸ rfl)
    | .isFalse h => .isFalse (fun hc => h (by injection hc))
  | .error _, .ok _ => .isFalse (fun hc => Except.noConfusion hc)
  | .ok _, .error _ => .isFalse (fun hc => Except.noConfusion hc)
  | .ok a2, .ok b2 =>
    match decEq a2 b2 with
    | .isTrue h => .isTrue (h ▸ rfl)
    | .isFalse h => .isFalse (fun hc => h (by injection hc))

/-- Demo product: the Product A of the acceptance scenarios (price 1000.00,
stock 5). -/
def prodA : Product := ⟨1, "A", 100000, 5, true, 0⟩

/-- Demo product: the Product B of the acceptance scenarios (price 500.00,
stock 1). -/
def prodB : Product := ⟨2, "B", 50000, 1, true, 0⟩

/-- Demo state: cart holding 2 of Product A and 1 of Product B. -/
def demoCheckoutState : State := ⟨[prodA, prodB], ⟨[⟨1, 1, 2⟩, ⟨2, 2, 1⟩]⟩, []⟩

/-- The completed order produced by checking out the demo cart with exact
payment 2500.00. -/
def demoOrder : Order :=
  ⟨.completed, 250000, 250000, 0,
    [⟨1, "A", 100000, 2, 200000⟩, ⟨2, "B", 50000, 1, 50000⟩], true⟩

/-- The committed state after that successful checkout. -/
def demoFinalState : State :=
  ⟨[⟨1, "A", 100000, 3, true, 2⟩, ⟨2, "B", 50000, 0, true, 1⟩], ⟨[]⟩,
    [demoOrder]⟩

/-- Demo state whose cart duplicates one product line, the sequential image
of two racing checkouts: the stock check passes per line but the second
decrement fails inside the loop, after the pending order was created. -/
def demoRaceState : State :=
  ⟨[⟨1, "A", 100000, 3, true, 0⟩], ⟨[⟨1, 1, 2⟩, ⟨2, 1, 2⟩]⟩, []⟩

/-- Demo state of the acceptance scenario for the stock check: 2 of A
(stock 5) and 3 of B (stock 1). -/
def demoStockState : State := ⟨[prodA, prodB], ⟨[⟨1, 1, 2⟩, ⟨2, 2, 3⟩]⟩, []⟩

/-- Demo state after merging an add of 2 more units of Product A. -/
def demoMergedState : State :=
  ⟨[prodA, prodB], ⟨[⟨1, 1, 4⟩, ⟨2, 2, 1⟩]⟩, []⟩

/-- Demo state with an empty cart. -/
def demoEmptyCartState : State := ⟨[prodA], ⟨[]⟩, []⟩

/-- Demo pending order: total 100.00, paid 150.00. -/
def demoPendingOrder : Order := ⟨.pending, 10000, 15000, 0, [], false⟩

/-- The completed form of the demo pending order. -/
def demoCompletedOrder : Order := ⟨.completed, 10000, 15000, 5000, [], true⟩

/-- Demo state for the update_item claims: one product with stock 2, one
cart line of quantity 1. -/
def demoUpdateState : State :=
  ⟨[⟨1, "A", 10000, 2, true, 0⟩], ⟨[⟨1, 1, 1⟩]⟩, []⟩

/-- Demo analytics rows: aggregates NULL, 3, 8 and 25. -/
def demoStats : List ProductStat :=
  [⟨prodA, none⟩, ⟨prodB, some 3⟩, ⟨⟨3, "C", 10000, 1, true, 0⟩, some 8⟩,
    ⟨⟨4, "D", 10000, 1, true, 0⟩, some 25⟩]

/-- Folding addition of a mapped value equals the initial value plus the sum
of the mapped list. -/
theorem foldl_add_eq_add_sum {α : Type} (f : α → Money) :
    ∀ (l : List α) (c : Money),
      l.foldl (fun acc x => acc + f x) c = c + (l.map f).sum
  | [], c => by simp
  | x :: l, c => by
    rw [List.foldl_cons, foldl_add_eq_add_sum f l (c + f x)]
    simp [add_assoc]

/-- Summing the joined line subtotals equals summing price times quantity
over the cart items whose product is active. -/
theorem joinActive_sum (products : List Product) :
    ∀ items : List CartItem,
      ((joinActive products items).map lineSubtotal).sum =
        ((items.filter (activeLine products)).map
          (fun it => linePrice products it * (it.quantity : Money))).sum
  | [] => rfl
  | it :: rest => by
    have ih := joinActive_sum products rest
    cases h : findProductIn products it.product_id with
    | none =>
      have ha : activeLine products it = false := by simp [activeLine, h]
      simp [joinActive, List.filterMap_cons, h, List.filter_cons, ha,
        joinActive] at ih ⊢
      exact ih
    | some p =>
      by_cases hact : p.is_active = true
      · have ha : activeLine products it = true := by simp [activeLine, h, hact]
        have hp : linePrice products it = p.price := by simp [linePrice, h]
        simp [joinActive, List.filterMap_cons, h, hact, List.filter_cons, ha,
          lineSubtotal, hp] at ih ⊢
        simp [ih]
      · have ha : activeLine products it = false := by
          simp [activeLine, h]
          simpa using hact
        simp [joinActive, List.filterMap_cons, h, hact, List.filter_cons, ha] at ih ⊢
        exact ih

/-- Claim C5: calculate_total equals the sum of price times quantity over the
cart items whose product is active, computed exactly, and the empty cart
yields zero. -/
theorem calculate_total_matches_spec (s : State) :
    s.calculate_total = specCartTotal s ∧
    (s.cart.items = [] → s.calculate_total = 0) := by
  constructor
  · rw [State.calculate_total, foldl_add_eq_add_sum, zero_add, specCartTotal,
      State.get_items, joinActive_sum]
  · intro h
    simp [State.calculate_total, State.get_items, joinActive, h]

/-- Claim C1: checkout is all-or-nothing.  Every failing checkout, at any
validation step or after the pending order has been created (an exception
in the stock loop), leaves the entire state unchanged: no order, no order
item, no stock mutation and no cart mutation survives. -/
theorem checkout_error_rolls_back (s : State) (amount_paid : Money)
    (e : CheckoutError) (s2 : State)
    (h : checkout s amount_paid = (.error e, s2)) : s2 = s := by
  unfold checkout at h
  by_cases hv : checkout_amount_valid amount_paid = true
  · rw [if_pos hv] at h
    cases hb : checkoutBody s amount_paid with
    | error e2 => rw [hb] at h; exact (Prod.mk.injEq _ _ _ _ ▸ h).2.symm
    | ok os => rw [hb] at h; cases os with
      | mk o s3 => simp at h
  · rw [if_neg hv] at h
    exact (Prod.mk.injEq _ _ _ _ ▸ h).2.symm

/-- A found product row carries the pk it was looked up by. -/
theorem findProduct_some_id (s : State) (pid : Nat) (p : Product)
    (h : s.findProduct pid = some p) : p.id = pid := by
  have h2 := List.find?_some h
  exact beq_iff_eq.mp h2

/-- find? commutes with mapping a function that preserves the key. -/
theorem find?_map_key {α : Type} (g : α → α) (key : α → Nat) (pid : Nat)
    (hg : ∀ x, key (g x) = key x) :
    ∀ l : List α,
      (l.map g).find? (fun x => key x == pid) =
        (l.find? (fun x => key x == pid)).map g
  | [] => rfl
  | a :: l => by
    simp only [List.map_cons, List.find?_cons]
    rw [hg a]
    cases h : (key a == pid) with
    | true => simp
    | false => simpa using find?_map_key g key pid hg l

/-- Effect of writing one product row back on every lookup. -/
theorem findProduct_updateProduct (s : State) (p2 : Product) (pid : Nat) :
    (s.updateProduct p2).findProduct pid =
      (s.findProduct pid).map (fun q => if q.id == p2.id then p2 else q) := by
  have hg : ∀ q : Product, (if q.id == p2.id then p2 else q).id = q.id := by
    intro q
    by_cases h : (q.id == p2.id) = true
    · rw [if_pos h]
      exact (beq_iff_eq.mp h).symm
    · rw [if_neg h]
  simp only [State.updateProduct, State.findProduct, findProductIn]
  exact find?_map_key _ Product.id pid hg s.products

/-- reducedProduct keeps the pk. -/
theorem reducedProduct_id (p : Product) (q : Nat) :
    (reducedProduct p q).id = p.id := rfl

/-- A successful reduce_stock_save is exactly the write-back of the reduced
row. -/
theorem reduce_stock_save_ok (s : State) (pid q : Nat) (p : Product)
    (hp : s.findProduct pid = some p)
    (hcan : p.can_fulfill_quantity q = true) :
    reduce_stock_save s pid q = .ok (s.updateProduct (reducedProduct p q)) := by
  simp only [reduce_stock_save, hp, Product.reduce_stock, hcan, if_true]
  rfl

/-- reduce_stock_save only touches product rows. -/
theorem reduce_stock_save_preserves (s : State) (pid q : Nat) (s2 : State)
    (h : reduce_stock_save s pid q = .ok s2) :
    s2.cart = s.cart ∧ s2.orders = s.orders := by
  cases hp : s.findProduct pid with
  | none => simp [reduce_stock_save, hp] at h
  | some p =>
    simp only [reduce_stock_save, hp] at h
    cases hr : p.reduce_stock q with
    | error e => simp [hr] at h
    | ok p2 =>
      simp only [hr] at h
      injection h with h2
      subst h2
      exact ⟨rfl, rfl⟩

/-- The checkout loop only touches product rows and the order being built. -/
theorem processItems_preserves :
    ∀ (l : List (CartItem × Product)) (s : State) (order o2 : Order) (s2 : State),
      processItems s order l = .ok (o2, s2) →
      s2.cart = s.cart ∧ s2.orders = s.orders
  | [], s, order, o2, s2, h => by
    cases h
    exact ⟨rfl, rfl⟩
  | itp :: rest, s, order, o2, s2, h => by
    rw [processItems] at h
    cases hr : reduce_stock_save s itp.1.product_id itp.1.quantity with
    | error e => simp [hr] at h
    | ok s3 =>
      simp only [hr] at h
      have h1 := reduce_stock_save_preserves s _ _ s3 hr
      have h2 := processItems_preserves rest s3 _ o2 s2 h
      exact ⟨h2.1.trans h1.1, h2.2.trans h1.2⟩

/-- Full specification of a successful checkout loop on cart lines whose
products are the current rows, pairwise distinct and able to fulfil their
quantities: the built order carries one snapshot per line, each touched
product row is decremented and counted exactly once, everything else is
unchanged. -/
theorem processItems_spec (l : List (CartItem × Product)) :
    ∀ (s : State) (order : Order),
      (∀ itp ∈ l, s.findProduct itp.1.product_id = some itp.2) →
      (∀ itp ∈ l, itp.2.id = itp.1.product_id) →
      (l.map (fun itp => itp.1.product_id)).Nodup →
      (∀ itp ∈ l, itp.2.can_fulfill_quantity itp.1.quantity = true) →
      ∃ s2,
        processItems s order l =
          .ok ({ order with
                  items := order.items ++
                    l.map (fun itp => mkOrderItem itp.2 itp.1.quantity) }, s2) ∧
        s2.cart = s.cart ∧ s2.orders = s.orders ∧
        (∀ itp ∈ l,
          s2.findProduct itp.1.product_id =
            some (reducedProduct itp.2 itp.1.quantity)) ∧
        (∀ pid, pid ∉ l.map (fun itp => itp.1.product_id) →
          s2.findProduct pid = s.findProduct pid) := by
  induction l with
  | nil =>
    intro s order _ _ _ _
    exact ⟨s, by simp [processItems], rfl, rfl, by simp, fun pid _ => rfl⟩
  | cons itp rest ih =>
    obtain ⟨it, p⟩ := itp
    intro s order hfind hid hnodup hcan
    have hfind_head : s.findProduct it.product_id = some p :=
      hfind (it, p) (List.mem_cons_self _ _)
    have hid_head : p.id = it.product_id := hid (it, p) (List.mem_cons_self _ _)
    have hcan_head : p.can_fulfill_quantity it.quantity = true :=
      hcan (it, p) (List.mem_cons_self _ _)
    have hnotin : it.product_id ∉ rest.map (fun itp => itp.1.product_id) := by
      have := hnodup
      rw [List.map_cons, List.nodup_cons] at this
      exact this.1
    set s1 := s.updateProduct (reducedProduct p it.quantity) with hs1
    have hred : reduce_stock_save s it.product_id it.quantity = .ok s1 :=
      reduce_stock_save_ok s _ _ p hfind_head hcan_head
    have hstep :
        processItems s order ((it, p) :: rest) =
          processItems s1
            { order with items := order.items ++ [mkOrderItem p it.quantity] }
            rest := by
      rw [processItems, hred]
    have hkeep : ∀ pid, pid ≠ it.product_id →
        s1.findProduct pid = s.findProduct pid := by
      intro pid hne
      rw [hs1, findProduct_updateProduct]
      cases hq : s.findProduct pid with
      | none => rfl
      | some q =>
        have hqid : q.id = pid := findProduct_some_id s pid q hq
        have hfalse : (q.id == (reducedProduct p it.quantity).id) = false := by
          rw [reducedProduct_id, hid_head, hqid]
          exact beq_eq_false_iff_ne.mpr hne
        have hcond : ¬ ((q.id == (reducedProduct p it.quantity).id) = true) := by
          rw [hfalse]
          exact Bool.false_ne_true
        exact congrArg some (if_neg hcond)
    have hfind_rest : ∀ itp ∈ rest, s1.findProduct itp.1.product_id = some itp.2 := by
      intro itp hm
      have hne : itp.1.product_id ≠ it.product_id := by
        intro hcontra
        exact hnotin (hcontra ▸ List.mem_map_of_mem (fun itp => itp.1.product_id) hm)
      rw [hkeep _ hne]
      exact hfind itp (List.mem_cons_of_mem _ hm)
    have hid_rest : ∀ itp ∈ rest, itp.2.id = itp.1.product_id :=
      fun itp hm => hid itp (List.mem_cons_of_mem _ hm)
    have hnodup_rest : (rest.map (fun itp => itp.1.product_id)).Nodup := by
      have := hnodup
      rw [List.map_cons, List.nodup_cons] at this
      exact this.2
    have hcan_rest : ∀ itp ∈ rest, itp.2.can_fulfill_quantity itp.1.quantity = true :=
      fun itp hm => hcan itp (List.mem_cons_of_mem _ hm)
    obtain ⟨s2, heq, hcart, horders, htouched, huntouched⟩ :=
      ih s1 { order with items := order.items ++ [mkOrderItem p it.quantity] }
        hfind_rest hid_rest hnodup_rest hcan_rest
    refine ⟨s2, ?_, ?_, ?_, ?_, ?_⟩
    · rw [hstep, heq]
      simp [List.append_assoc]
    · exact hcart.trans rfl
    · exact horders.trans rfl
    · intro itp hm
      rcases List.mem_cons.mp hm with hhead | hrest
      · subst hhead
        rw [huntouched _ hnotin, hs1, findProduct_updateProduct, hfind_head]
        have hbeq : (p.id == (reducedProduct p it.quantity).id) = true := by
          rw [reducedProduct_id]
          exact beq_iff_eq.mpr rfl
        exact congrArg some (if_pos hbeq)
      · exact htouched itp hrest
    · intro pid hnm
      have hne : pid ≠ it.product_id := by
        intro hcontra
        exact hnm (by simp [hcontra])
      have hnrest : pid ∉ rest.map (fun itp => itp.1.product_id) := by
        intro hcontra
        exact hnm (by simp [hcontra])
      rw [huntouched pid hnrest, hkeep pid hne]

/-- joinActive drops a cart line whose product does not exist. -/
theorem joinActive_cons_none (products : List Product) (it : CartItem)
    (rest : List CartItem) (hp : findProductIn products it.product_id = none) :
    joinActive products (it :: rest) = joinActive products rest := by
  simp [joinActive, List.filterMap_cons, hp]

/-- joinActive drops a cart line whose product is inactive. -/
theorem joinActive_cons_inactive (products : List Product) (it : CartItem)
    (rest : List CartItem) (p : Product)
    (hp : findProductIn products it.product_id = some p)
    (ha : p.is_active = false) :
    joinActive products (it :: rest) = joinActive products rest := by
  simp [joinActive, List.filterMap_cons, hp, ha]

/-- joinActive keeps a cart line whose product is active. -/
theorem joinActive_cons_active (products : List Product) (it : CartItem)
    (rest : List CartItem) (p : Product)
    (hp : findProductIn products it.product_id = some p)
    (ha : p.is_active = true) :
    joinActive products (it :: rest) = (it, p) :: joinActive products rest := by
  simp [joinActive, List.filterMap_cons, hp, ha]

/-- Membership in the active join determines the cart row, the product row
and its activity. -/
theorem mem_joinActive (products : List Product) (items : List CartItem)
    (itp : CartItem × Product) (h : itp ∈ joinActive products items) :
    itp.1 ∈ items ∧ findProductIn products itp.1.product_id = some itp.2 ∧
      itp.2.is_active = true := by
  simp only [joinActive, List.mem_filterMap] at h
  obtain ⟨it, hmem, hf⟩ := h
  cases hp : findProductIn products it.product_id with
  | none => rw [hp] at hf; cases hf
  | some p =>
    simp only [hp] at hf
    by_cases ha : p.is_active = true
    · rw [if_pos ha] at hf
      injection hf with hf2
      subst hf2
      exact ⟨hmem, hp, ha⟩
    · rw [if_neg ha] at hf
      cases hf

/-- Membership facts for get_items. -/
theorem mem_get_items (s : State) (itp : CartItem × Product)
    (h : itp ∈ s.get_items) :
    itp.1 ∈ s.cart.items ∧ s.findProduct itp.1.product_id = some itp.2 ∧
      itp.2.is_active = true ∧ itp.2.id = itp.1.product_id := by
  obtain ⟨h1, h2, h3⟩ := mem_joinActive s.products s.cart.items itp h
  exact ⟨h1, h2, h3, findProduct_some_id s _ _ h2⟩

/-- The product ids of the active join are pairwise distinct whenever the
cart rows respect the uniqueness constraint on (cart, product). -/
theorem joinActive_pid_nodup (products : List Product) :
    ∀ items : List CartItem, (items.map CartItem.product_id).Nodup →
      ((joinActive products items).map (fun itp => itp.1.product_id)).Nodup
  | [], _ => by simp [joinActive]
  | it :: rest, h => by
    rw [List.map_cons, List.nodup_cons] at h
    have ih := joinActive_pid_nodup products rest h.2
    have hmem : ∀ itp ∈ joinActive products rest, itp.1.product_id ∈
        rest.map CartItem.product_id := by
      intro itp hm
      exact List.mem_map_of_mem _ (mem_joinActive products rest itp hm).1
    cases hp : findProductIn products it.product_id with
    | none =>
      rw [joinActive_cons_none products it rest hp]
      exact ih
    | some p =>
      cases ha : p.is_active with
      | false =>
        rw [joinActive_cons_inactive products it rest p hp ha]
        exact ih
      | true =>
        rw [joinActive_cons_active products it rest p hp ha]
        rw [List.map_cons, List.nodup_cons]
        refine ⟨?_, ih⟩
        intro hcontra
        rw [List.mem_map] at hcontra
        obtain ⟨itp, hm, heq⟩ := hcontra
        exact h.1 (heq ▸ hmem itp hm)

/-- Successful Order.complete: the payment covered the total, the status is
completed, and the change is the exact difference. -/
theorem complete_ok (o o2 : Order) (h : Order.complete o = .ok o2) :
    o.total_amount ≤ o.amount_paid ∧
    o2 = { o with status := .completed,
                  change_amount := o.amount_paid - o.total_amount,
                  completed_at_set := true } := by
  unfold Order.complete at h
  by_cases hc : o.can_complete = true
  · have hle : o.total_amount ≤ o.amount_paid := of_decide_eq_true hc
    refine ⟨hle, ?_⟩
    rw [if_pos hc] at h
    injection h with h2
    rw [← h2]
    have hch : o.calculate_change = o.amount_paid - o.total_amount := by
      unfold Order.calculate_change
      exact if_pos hle
    rw [hch]
  · rw [if_neg hc] at h
    cases h

/-- Structure of a successful checkoutBody run. -/
theorem checkoutBody_ok (s : State) (a : Money) (o : Order) (s2 : State)
    (h : checkoutBody s a = .ok (o, s2)) :
    s.get_items ≠ [] ∧
    ¬ a < s.calculate_total ∧
    stockViolations s = [] ∧
    ∃ order1 s1,
      processItems s (pendingOrder s a) s.get_items = .ok (order1, s1) ∧
      order1.complete = .ok o ∧
      s2 = { s1 with cart := ⟨[]⟩, orders := s1.orders ++ [o] } := by
  simp only [checkoutBody] at h
  by_cases h1 : s.get_items.isEmpty = true
  · rw [if_pos h1] at h
    exact Except.noConfusion h
  · rw [if_neg h1] at h
    by_cases h2 : a < s.calculate_total
    · rw [if_pos h2] at h
      exact Except.noConfusion h
    · rw [if_neg h2] at h
      by_cases h3 : (stockViolations s).isEmpty = true
      · rw [if_pos h3] at h
        refine ⟨fun hnil => h1 (by simp [hnil]), h2, by simpa using h3, ?_⟩
        cases hp : processItems s (pendingOrder s a) s.get_items with
        | error e =>
          rw [show processItems s
              { status := .pending, total_amount := s.calculate_total,
                amount_paid := a, change_amount := 0, items := [],
                completed_at_set := false } s.get_items =
              processItems s (pendingOrder s a) s.get_items from rfl, hp] at h
          exact Except.noConfusion h
        | ok pair =>
          obtain ⟨order1, s1⟩ := pair
          rw [show processItems s
              { status := .pending, total_amount := s.calculate_total,
                amount_paid := a, change_amount := 0, items := [],
                completed_at_set := false } s.get_items =
              processItems s (pendingOrder s a) s.get_items from rfl, hp] at h
          cases hc : order1.complete with
          | error e => simp [hc] at h
          | ok order2 =>
            simp only [hc] at h
            injection h with h4
            injection h4 with h5 h6
            subst h5
            subst h6
            exact ⟨order1, s1, rfl, hc, rfl⟩
      · rw [if_neg h3] at h
        exact Except.noConfusion h

/-- Every checkout either fails leaving the state unchanged, or commits the
completed order produced by the item/stock loop, clears the cart and
appends the order row. -/
theorem checkout_result (s : State) (a : Money) :
    (∃ e, checkout s a = (.error e, s)) ∨
    (∃ o order1 s1,
      stockViolations s = [] ∧
      processItems s (pendingOrder s a) s.get_items = .ok (order1, s1) ∧
      order1.complete = .ok o ∧
      checkout s a = (.ok o, { s1 with cart := ⟨[]⟩, orders := s1.orders ++ [o] })) := by
  unfold checkout
  by_cases hv : checkout_amount_valid a = true
  · rw [if_pos hv]
    cases hb : checkoutBody s a with
    | error e => exact .inl ⟨e, rfl⟩
    | ok pair =>
      obtain ⟨o, s2⟩ := pair
      obtain ⟨_, _, hstock, order1, s1, hp, hc, hs2⟩ := checkoutBody_ok s a o s2 hb
      exact .inr ⟨o, order1, s1, hstock, hp, hc, by rw [hs2]⟩
  · rw [if_neg hv]
    exact .inl ⟨_, rfl⟩

/-- An empty violation list means every line can be fulfilled. -/
theorem stockViolations_nil (s : State) (h : stockViolations s = []) :
    ∀ itp ∈ s.get_items, itp.2.can_fulfill_quantity itp.1.quantity = true := by
  intro itp hm
  rw [stockViolations, List.filterMap_eq_nil_iff] at h
  have h2 := h itp hm
  by_cases hc : itp.2.can_fulfill_quantity itp.1.quantity = true
  · exact hc
  · rw [if_neg hc] at h2
    cases h2

/-- Claim C2: after every successful checkout the cart is empty, each
ordered cart line's product row has its stock_quantity decreased by exactly
the line quantity and its total_ordered increased by the same amount, and
the completed order carries one OrderItem snapshot (name, price, quantity,
stored subtotal) per ordered cart line.  The hypothesis is the uniqueness
constraint on (cart, product) enforced by the schema. -/
theorem checkout_success_effects (s : State) (a : Money) (o : Order) (s2 : State)
    (hnodup : (s.cart.items.map CartItem.product_id).Nodup)
    (h : checkout s a = (.ok o, s2)) :
    s2.cart.items = [] ∧
    o.status = .completed ∧
    o.items = s.get_items.map (fun itp => mkOrderItem itp.2 itp.1.quantity) ∧
    ∀ itp ∈ s.get_items,
      s2.findProduct itp.1.product_id =
        some (reducedProduct itp.2 itp.1.quantity) := by
  rcases checkout_result s a with ⟨e, he⟩ | ⟨o2, order1, s1, hstock, hp, hc, hok⟩
  · rw [he] at h
    rw [Prod.mk.injEq] at h
    exact Except.noConfusion h.1
  · rw [hok] at h
    rw [Prod.mk.injEq] at h
    obtain ⟨h1, h2⟩ := h
    injection h1 with h1
    subst h1
    subst h2
    have hfind : ∀ itp ∈ s.get_items, s.findProduct itp.1.product_id = some itp.2 :=
      fun itp hm => (mem_get_items s itp hm).2.1
    have hid : ∀ itp ∈ s.get_items, itp.2.id = itp.1.product_id :=
      fun itp hm => (mem_get_items s itp hm).2.2.2
    have hpidnodup :
        (s.get_items.map (fun itp => itp.1.product_id)).Nodup :=
      joinActive_pid_nodup s.products s.cart.items hnodup
    have hcan := stockViolations_nil s hstock
    obtain ⟨s3, heq, hcart, horders, htouched, _⟩ :=
      processItems_spec s.get_items s (pendingOrder s a) hfind hid hpidnodup hcan
    rw [hp] at heq
    injection heq with heq2
    rw [Prod.mk.injEq] at heq2
    obtain ⟨ho1, hs1⟩ := heq2
    obtain ⟨hle, hco⟩ := complete_ok order1 o2 hc
    refine ⟨rfl, ?_, ?_, ?_⟩
    · rw [hco]
    · rw [hco, ho1]
      simp [pendingOrder]
    · intro itp hm
      have hproj :
          ({ s1 with cart := ⟨[]⟩, orders := s1.orders ++ [o2] } : State).findProduct
              itp.1.product_id =
            s1.findProduct itp.1.product_id := rfl
      rw [hproj, hs1]
      exact htouched itp hm

/-- Claim C4: Order.complete only produces completed orders whose
change_amount is exactly amount_paid minus total_amount and never negative,
and the checkout operation preserves this invariant for every order row in
the store. -/
theorem completed_order_change_correct :
    (∀ o o2 : Order, Order.complete o = .ok o2 →
      o2.status = .completed ∧
      o2.change_amount = o2.amount_paid - o2.total_amount ∧
      0 ≤ o2.change_amount) ∧
    ∀ (s : State) (a : Money),
      (∀ o ∈ s.orders, OrderOK o) →
      ∀ o ∈ (checkout s a).2.orders, OrderOK o := by
  have part1 : ∀ o o2 : Order, Order.complete o = .ok o2 →
      o2.status = .completed ∧
      o2.change_amount = o2.amount_paid - o2.total_amount ∧
      0 ≤ o2.change_amount := by
    intro o o2 hcc
    obtain ⟨hle, h2⟩ := complete_ok o o2 hcc
    subst h2
    exact ⟨rfl, rfl, sub_nonneg.mpr hle⟩
  refine ⟨part1, ?_⟩
  intro s a hinv o hm
  rcases checkout_result s a with ⟨e, he⟩ | ⟨o2, order1, s1, _, hp, hc, hok⟩
  · rw [he] at hm
    exact hinv o hm
  · rw [hok] at hm
    have hords : s1.orders = s.orders := (processItems_preserves _ _ _ _ _ hp).2
    have hm2 : o ∈ s1.orders ++ [o2] := hm
    rcases List.mem_append.mp hm2 with h1 | h1
    · exact hinv o (hords ▸ h1)
    · have ho : o = o2 := by simpa using h1
      subst ho
      intro _
      exact (part1 order1 o hc).2

/-- Claim C6: when the stock check fails, checkout returns an
insufficient-stock error carrying one entry (product name, requested
quantity, available stock) for every violating cart line, not only the
first, and the state is unchanged. -/
theorem checkout_reports_all_stock_shortages (s : State) (a : Money)
    (hval : checkout_amount_valid a = true)
    (hne : s.get_items ≠ [])
    (hpay : ¬ a < s.calculate_total)
    (herr : stockViolations s ≠ []) :
    checkout s a = (.error (.insufficient_stock (stockViolations s)), s) ∧
    ∀ itp ∈ s.get_items, itp.2.can_fulfill_quantity itp.1.quantity = false →
      (⟨itp.2.name, itp.1.quantity, itp.2.stock_quantity⟩ : StockError) ∈
        stockViolations s := by
  constructor
  · unfold checkout
    rw [if_pos hval]
    have hbody : checkoutBody s a =
        .error (.insufficient_stock (stockViolations s)) := by
      simp only [checkoutBody]
      rw [if_neg (fun hx : s.get_items.isEmpty = true => hne (by simpa using hx)),
        if_neg hpay,
        if_neg (fun hx : (stockViolations s).isEmpty = true => herr (by simpa using hx))]
    rw [hbody]
  · intro itp hm hcf
    rw [stockViolations, List.mem_filterMap]
    refine ⟨itp, hm, ?_⟩
    rw [if_neg (by rw [hcf]; exact Bool.false_ne_true)]

/-- can_fulfill_quantity unfolded. -/
theorem can_fulfill_iff (p : Product) (q : Nat) :
    p.can_fulfill_quantity q = true ↔ (q ≠ 0 ∧ q ≤ p.stock_quantity) := by
  unfold Product.can_fulfill_quantity
  by_cases h : q = 0 <;> simp [h]

/-- Rewriting a cart item quantity keeps each row's product id. -/
theorem updateItemQuantity_map_pid (s : State) (item_id nq : Nat) :
    (updateItemQuantity s item_id nq).cart.items.map CartItem.product_id =
      s.cart.items.map CartItem.product_id := by
  unfold updateItemQuantity
  rw [List.map_map]
  refine List.map_congr_left ?_
  intro j _
  by_cases hj : (j.id == item_id) = true
  · simp [Function.comp, hj]
  · simp [Function.comp, hj]

/-- After an error outcome the pair carries the unchanged state; helper for
unpacking add_item results. -/
theorem pair_error_state {s s2 : State} {r : Except CartError Unit}
    {e : CartError}
    (h : ((.error e, s) : Except CartError Unit × State) = (r, s2)) :
    r = .error e ∧ s2 = s := by
  rw [Prod.mk.injEq] at h
  exact ⟨h.1.symm, h.2.symm⟩

/-- Claim C7: a successful add of a product that already has a cart line
increments that line by the requested amount, creating no second row, so
the cart keeps at most one line per product; a successful add of a product
without a line appends exactly one line with the requested quantity.  The
uniqueness hypothesis is the (cart, product) constraint of the schema. -/
theorem add_item_merges_duplicate_lines (s : State) (pid q : Nat)
    (r : Except CartError Unit) (s2 : State)
    (hnodup : (s.cart.items.map CartItem.product_id).Nodup)
    (h : add_item s pid q = (r, s2)) :
    (s2.cart.items.map CartItem.product_id).Nodup ∧
    (r = .ok () →
      (∀ cart_item,
        s.cart.items.find? (fun it => it.product_id == pid) = some cart_item →
        s2.cart.items.length = s.cart.items.length ∧
        s2.cart.items.find? (fun it => it.product_id == pid) =
          some { cart_item with quantity := cart_item.quantity + q }) ∧
      (s.cart.items.find? (fun it => it.product_id == pid) = none →
        s2.cart.items = s.cart.items ++ [⟨nextItemId s, pid, q⟩])) := by
  unfold add_item at h
  by_cases h1 : q < 1
  · rw [if_pos h1] at h
    obtain ⟨hr, hs⟩ := pair_error_state h
    subst hs
    exact ⟨hnodup, fun hok => absurd (hr ▸ hok) (by simp)⟩
  · rw [if_neg h1] at h
    cases hp : s.findProduct pid with
    | none =>
      simp only [hp] at h
      obtain ⟨hr, hs⟩ := pair_error_state h
      subst hs
      exact ⟨hnodup, fun hok => absurd (hr ▸ hok) (by simp)⟩
    | some p =>
      simp only [hp] at h
      by_cases h3 : p.is_active = false
      · rw [if_pos h3] at h
        obtain ⟨hr, hs⟩ := pair_error_state h
        subst hs
        exact ⟨hnodup, fun hok => absurd (hr ▸ hok) (by simp)⟩
      · rw [if_neg h3] at h
        by_cases h4 : p.can_fulfill_quantity q = false
        · rw [if_pos h4] at h
          obtain ⟨hr, hs⟩ := pair_error_state h
          subst hs
          exact ⟨hnodup, fun hok => absurd (hr ▸ hok) (by simp)⟩
        · rw [if_neg h4] at h
          cases hfind0 : s.cart.items.find? (fun it => it.product_id == pid) with
          | some cart_item0 =>
            simp only [hfind0] at h
            by_cases h5 :
                p.can_fulfill_quantity (cart_item0.quantity + q) = false
            · rw [if_pos h5] at h
              obtain ⟨hr, hs⟩ := pair_error_state h
              subst hs
              exact ⟨hnodup, fun hok => absurd (hr ▸ hok) (by simp)⟩
            · rw [if_neg h5] at h
              rw [Prod.mk.injEq] at h
              obtain ⟨hr, hs⟩ := h
              subst hs
              refine ⟨?_, ?_⟩
              · rw [updateItemQuantity_map_pid]
                exact hnodup
              · intro _
                refine ⟨?_, ?_⟩
                · intro cart_item hfind
                  injection hfind with hfind
                  subst hfind
                  constructor
                  · unfold updateItemQuantity
                    exact List.length_map _ _
                  · unfold updateItemQuantity
                    rw [find?_map_key _ CartItem.product_id pid
                      (fun j => by by_cases hj : (j.id == cart_item0.id) = true <;>
                        simp [hj]) s.cart.items]
                    rw [hfind0, Option.map_some']
                    exact congrArg some (if_pos (beq_iff_eq.mpr rfl))
                · intro hnone
                  exact Option.noConfusion hnone
          | none =>
            simp only [hfind0] at h
            rw [Prod.mk.injEq] at h
            obtain ⟨hr, hs⟩ := h
            subst hs
            refine ⟨?_, ?_⟩
            · have hnot : ∀ it ∈ s.cart.items, it.product_id ≠ pid := by
                intro it hm hcontra
                have := List.find?_eq_none.mp hfind0 it hm
                exact this (beq_iff_eq.mpr hcontra)
              unfold appendItem
              rw [List.map_append]
              refine List.Nodup.append hnodup (List.nodup_singleton _) ?_
              intro x hx hx2
              simp only [List.map_cons, List.map_nil, List.mem_singleton] at hx2
              subst hx2
              rw [List.mem_map] at hx
              obtain ⟨it, hm, heq⟩ := hx
              exact hnot it hm heq
            · intro _
              refine ⟨?_, ?_⟩
              · intro cart_item hfind
                exact Option.noConfusion hfind
              · intro _
                rfl

/-- Claim C10 (implicit behaviour): add_item also validates stock.  A
requested quantity beyond the current stock is rejected by the serializer;
when a line already exists, a combined existing-plus-requested quantity
beyond the stock is rejected by the view with the insufficient-stock
response; both rejections leave the cart unchanged, and a successful add
implies the respective bound held. -/
theorem add_item_validates_stock (s : State) (pid q : Nat) (p : Product)
    (hp : s.findProduct pid = some p)
    (hact : p.is_active = true)
    (hq : 1 ≤ q) :
    (p.can_fulfill_quantity q = false →
      add_item s pid q = (.error (.validation_error "Insufficient stock."), s)) ∧
    (∀ cart_item,
      s.cart.items.find? (fun it => it.product_id == pid) = some cart_item →
      p.can_fulfill_quantity q = true →
      p.can_fulfill_quantity (cart_item.quantity + q) = false →
      add_item s pid q = (.error .insufficient_stock, s)) ∧
    (∀ s2, add_item s pid q = (.ok (), s2) →
      q ≤ p.stock_quantity ∧
      ∀ cart_item,
        s.cart.items.find? (fun it => it.product_id == pid) = some cart_item →
        cart_item.quantity + q ≤ p.stock_quantity) := by
  have hnl : ¬ q < 1 := Nat.not_lt.mpr hq
  have hactf : ¬ p.is_active = false := by simp [hact]
  refine ⟨?_, ?_, ?_⟩
  · intro hcf
    unfold add_item
    rw [if_neg hnl]
    simp only [hp]
    rw [if_neg hactf, if_pos hcf]
  · intro cart_item hfind hcanq hcf2
    unfold add_item
    rw [if_neg hnl]
    simp only [hp]
    rw [if_neg hactf, if_neg (by rw [hcanq]; exact fun hx => Bool.noConfusion hx)]
    simp only [hfind]
    rw [if_pos hcf2]
  · intro s2 h
    unfold add_item at h
    rw [if_neg hnl] at h
    simp only [hp] at h
    rw [if_neg hactf] at h
    by_cases h4 : p.can_fulfill_quantity q = false
    · rw [if_pos h4] at h
      rw [Prod.mk.injEq] at h
      exact absurd h.1 (by simp)
    · rw [if_neg h4] at h
      have hqle : q ≤ p.stock_quantity := by
        have := can_fulfill_iff p q
        rcases hb : p.can_fulfill_quantity q with _ | _
        · exact absurd hb h4
        · exact (this.mp hb).2
      refine ⟨hqle, ?_⟩
      cases hfind0 : s.cart.items.find? (fun it => it.product_id == pid) with
      | none =>
        intro cart_item hfind
        exact Option.noConfusion hfind
      | some cart_item0 =>
        simp only [hfind0] at h
        intro cart_item hfind
        injection hfind with hfind
        subst hfind
        by_cases h5 : p.can_fulfill_quantity (cart_item0.quantity + q) = false
        · rw [if_pos h5] at h
          rw [Prod.mk.injEq] at h
          exact absurd h.1 (by simp)
        · have hb2 : p.can_fulfill_quantity (cart_item0.quantity + q) = true := by
            rcases hb : p.can_fulfill_quantity (cart_item0.quantity + q) with _ | _
            · exact absurd hb h5
            · rfl
          exact ((can_fulfill_iff p _).mp hb2).2

/-- Claim C9 (amended): update_item rejects quantities below 1 with a
ValidationError, fails with NotFoundError when the item is not in the cart,
and in addition fails with an insufficient-stock outcome when the new
quantity exceeds the product's stock; every error leaves the state
unchanged. -/
theorem update_item_outcomes (s : State) (item_id q : Nat) :
    (q < 1 → update_item s item_id q =
      (.error (.validation_error "Quantity must be at least 1."), s)) ∧
    (1 ≤ q → q ≤ 1000 →
      s.cart.items.find? (fun it => it.id == item_id) = none →
      update_item s item_id q = (.error .not_found, s)) ∧
    (∀ cart_item p, 1 ≤ q → q ≤ 1000 →
      s.cart.items.find? (fun it => it.id == item_id) = some cart_item →
      s.findProduct cart_item.product_id = some p →
      update_item s item_id q =
        (if p.can_fulfill_quantity q = false then (.error .insufficient_stock, s)
         else (.ok (), updateItemQuantity s item_id q))) ∧
    (∀ e s2, update_item s item_id q = (.error e, s2) → s2 = s) := by
  refine ⟨?_, ?_, ?_, ?_⟩
  · intro h1
    unfold update_item
    rw [if_pos h1]
  · intro h1 h2 hfind
    unfold update_item
    rw [if_neg (Nat.not_lt.mpr h1), if_neg (Nat.not_lt.mpr h2)]
    simp only [hfind]
  · intro cart_item p h1 h2 hfind hp
    unfold update_item
    rw [if_neg (Nat.not_lt.mpr h1), if_neg (Nat.not_lt.mpr h2)]
    simp only [hfind, hp]
  · intro e s2 h
    unfold update_item at h
    by_cases h1 : q < 1
    · rw [if_pos h1] at h
      exact (pair_error_state h).2.trans rfl
    · rw [if_neg h1] at h
      by_cases h2 : 1000 < q
      · rw [if_pos h2] at h
        exact (pair_error_state h).2.trans rfl
      · rw [if_neg h2] at h
        cases hfind : s.cart.items.find? (fun it => it.id == item_id) with
        | none =>
          simp only [hfind] at h
          exact (pair_error_state h).2.trans rfl
        | some cart_item =>
          simp only [hfind] at h
          cases hp : s.findProduct cart_item.product_id with
          | none =>
            simp only [hp] at h
            exact (pair_error_state h).2.trans rfl
          | some p =>
            simp only [hp] at h
            by_cases h3 : p.can_fulfill_quantity q = false
            · rw [if_pos h3] at h
              exact (pair_error_state h).2.trans rfl
            · rw [if_neg h3] at h
              rw [Prod.mk.injEq] at h
              exact absurd h.1 (by simp)

/-- Claim C8: the performance buckets use exactly the boundaries of the
code on each active product's all-history total_sold: 0 lands in no_sales,
1 to 5 in low_performers, above 10 in high_performers, and 6 to 10 in
neither low_performers nor high_performers. -/
theorem performance_bucket_boundaries (l : List ProductStat) (ps : ProductStat)
    (hmem : ps ∈ l) :
    (ps.sold = 0 → ps ∈ no_sales l) ∧
    (0 < ps.sold → ps.sold ≤ 5 → ps ∈ low_performers l) ∧
    (10 < ps.sold → ps ∈ high_performers l) ∧
    (6 ≤ ps.sold → ps.sold ≤ 10 →
      ps ∉ low_performers l ∧ ps ∉ high_performers l) := by
  refine ⟨?_, ?_, ?_, ?_⟩
  · intro h0
    rw [no_sales, List.mem_filter]
    exact ⟨hmem, by simp [h0]⟩
  · intro h1 h2
    rw [low_performers, List.mem_filter]
    exact ⟨hmem, by simp [h1, h2]⟩
  · intro h1
    rw [high_performers, List.mem_filter]
    exact ⟨hmem, by simp [h1]⟩
  · intro h1 h2
    constructor
    · intro hc
      rw [low_performers, List.mem_filter] at hc
      have h3 := hc.2
      simp at h3
      omega
    · intro hc
      rw [high_performers, List.mem_filter] at hc
      have h3 := hc.2
      simp at h3
      omega

/-- Claim C3 refutation evidence: with two days of completed-order revenue
0.10 and 0.20 (10 and 20 cents), the total_revenue of the revenue analysis
is accumulated as a Python float, not a Decimal, so the serialized summary
total is a float string (concretely 0.30000000000000004 under IEEE
doubles), not an exact decimal string.  The growth_rate exemption of the
claim does not cover this returned currency amount. -/
theorem revenue_total_accumulated_in_float :
    revenue_total [(10 : Money), (20 : Money)] = PyNumber.pfloat 30 ∧
    serialized_as_exact_decimal
      (revenue_total [(10 : Money), (20 : Money)]) = false := by
  constructor
  · decide
  · decide

/-- Concrete instantiation of claim C1: the duplicate-line cart makes the
stock loop fail after the pending order is created, and the whole
transaction rolls back to the initial state. -/
theorem checkout_error_rolls_back_witness :
    checkout demoRaceState 400000 =
      (.error (.internal_error "Insufficient stock."), demoRaceState) ∧
    demoRaceState = demoRaceState := by
  have h : checkout demoRaceState 400000 =
      (.error (.internal_error "Insufficient stock."), demoRaceState) := by decide
  exact ⟨h, checkout_error_rolls_back demoRaceState 400000
    (.internal_error "Insufficient stock.") demoRaceState h⟩

/-- Concrete instantiation of claim C2 on the acceptance scenario: exact
payment empties the cart and decrements Product A from stock 5 to 3 while
counting 2 ordered. -/
theorem checkout_success_effects_witness :
    checkout demoCheckoutState 250000 = (.ok demoOrder, demoFinalState) ∧
    demoFinalState.cart.items = [] ∧
    demoFinalState.findProduct 1 = some ⟨1, "A", 100000, 3, true, 2⟩ := by
  have hck : checkout demoCheckoutState 250000 = (.ok demoOrder, demoFinalState) := by
    decide
  have h := checkout_success_effects demoCheckoutState 250000 demoOrder
    demoFinalState (by decide) hck
  exact ⟨hck, h.1, h.2.2.2 (⟨1, 1, 2⟩, prodA) (by decide)⟩

/-- Concrete instantiation of claim C4: completing an order paid 150.00
against a 100.00 total stores change 50.00. -/
theorem completed_order_change_correct_witness :
    Order.complete demoPendingOrder = .ok demoCompletedOrder ∧
    (demoCompletedOrder.status = .completed ∧
      demoCompletedOrder.change_amount =
        demoCompletedOrder.amount_paid - demoCompletedOrder.total_amount ∧
      0 ≤ demoCompletedOrder.change_amount) :=
  ⟨by decide,
    completed_order_change_correct.1 demoPendingOrder demoCompletedOrder (by decide)⟩

/-- Concrete instantiation of claim C5: the demo cart totals 2500.00 and the
empty cart totals zero. -/
theorem calculate_total_matches_spec_witness :
    demoCheckoutState.calculate_total = specCartTotal demoCheckoutState ∧
    demoEmptyCartState.calculate_total = 0 :=
  ⟨(calculate_total_matches_spec demoCheckoutState).1,
    (calculate_total_matches_spec demoEmptyCartState).2 rfl⟩

/-- Concrete instantiation of claim C6 on the acceptance scenario: paying
3500.00 for 2 of A and 3 of B fails listing B with requested 3 and
available 1, and the state is unchanged. -/
theorem checkout_reports_all_stock_shortages_witness :
    checkout demoStockState 350000 =
      (.error (.insufficient_stock [⟨"B", 3, 1⟩]), demoStockState) := by
  have h := checkout_reports_all_stock_shortages demoStockState 350000
    (by decide) (by decide) (by decide) (by decide)
  have h2 : stockViolations demoStockState = [⟨"B", 3, 1⟩] := by decide
  rw [← h2]
  exact h.1

/-- Concrete instantiation of claim C7: adding 2 more of Product A to the
demo cart merges into the existing line, quantity 2 becoming 4, with no
second row. -/
theorem add_item_merges_duplicate_lines_witness :
    add_item demoCheckoutState 1 2 = (.ok (), demoMergedState) ∧
    demoMergedState.cart.items.find? (fun it => it.product_id == 1) =
      some ⟨1, 1, 4⟩ ∧
    (demoMergedState.cart.items.map CartItem.product_id).Nodup := by
  have hadd : add_item demoCheckoutState 1 2 = (.ok (), demoMergedState) := by
    decide
  have h := add_item_merges_duplicate_lines demoCheckoutState 1 2 (.ok ())
    demoMergedState (by decide) hadd
  exact ⟨hadd, ((h.2 rfl).1 ⟨1, 1, 2⟩ (by decide)).2, h.1⟩

/-- Concrete instantiation of claim C8: aggregates NULL, 3, 8 and 25 land in
no_sales, low_performers, neither bucket, and high_performers. -/
theorem performance_bucket_boundaries_witness :
    (⟨prodA, none⟩ : ProductStat) ∈ no_sales demoStats ∧
    (⟨prodB, some 3⟩ : ProductStat) ∈ low_performers demoStats ∧
    (⟨⟨4, "D", 10000, 1, true, 0⟩, some 25⟩ : ProductStat) ∈
      high_performers demoStats ∧
    (⟨⟨3, "C", 10000, 1, true, 0⟩, some 8⟩ : ProductStat) ∉
      low_performers demoStats ∧
    (⟨⟨3, "C", 10000, 1, true, 0⟩, some 8⟩ : ProductStat) ∉
      high_performers demoStats := by
  have h1 := performance_bucket_boundaries demoStats ⟨prodA, none⟩ (by decide)
  have h2 := performance_bucket_boundaries demoStats ⟨prodB, some 3⟩ (by decide)
  have h3 := performance_bucket_boundaries demoStats
    ⟨⟨3, "C", 10000, 1, true, 0⟩, some 8⟩ (by decide)
  have h4 := performance_bucket_boundaries demoStats
    ⟨⟨4, "D", 10000, 1, true, 0⟩, some 25⟩ (by decide)
  have h5 := h3.2.2.2 (by decide) (by decide)
  exact ⟨h1.1 (by decide), h2.2.1 (by decide) (by decide),
    h4.2.2.1 (by decide), h5.1, h5.2⟩

/-- Counterexample to claim C9 as stated: updating the demo cart item to
quantity 3 with only 2 in stock produces the insufficient-stock outcome,
which is neither a ValidationError nor a NotFoundError, so those are not
the only failure outcomes of update_item. -/
theorem update_item_stock_failure_cex :
    update_item demoUpdateState 1 3 = (.error .insufficient_stock, demoUpdateState) ∧
    CartError.isValidationOrNotFound CartError.insufficient_stock = false := by
  exact ⟨by decide, rfl⟩

/-- Concrete instantiation of amended claim C9: quantity 3 against stock 2
yields the insufficient-stock outcome, and a foreign item id yields the
lookup failure. -/
theorem update_item_outcomes_witness :
    update_item demoUpdateState 1 3 =
      (.error .insufficient_stock, demoUpdateState) ∧
    update_item demoUpdateState 99 2 = (.error .not_found, demoUpdateState) := by
  have h := (update_item_outcomes demoUpdateState 1 3).2.2.1
    ⟨1, 1, 1⟩ ⟨1, "A", 10000, 2, true, 0⟩ (by decide) (by decide)
    (by decide) (by decide)
  constructor
  · rw [h]
    decide
  · exact (update_item_outcomes demoUpdateState 99 2).2.1
      (by decide) (by decide) (by decide)

/-- Concrete instantiation of claim C10: requesting 2 of Product B with
stock 1 is rejected by the serializer stock check with the state
unchanged. -/
theorem add_item_validates_stock_witness :
    add_item demoCheckoutState 2 2 =
      (.error (.validation_error "Insufficient stock."), demoCheckoutState) ∧
    Product.can_fulfill_quantity prodB 2 = false :=
  ⟨(add_item_validates_stock demoCheckoutState 2 2 prodB (by decide) (by decide)
      (by decide)).1 (by decide), by decide⟩

end ShoppingCartProof

